import Mathlib

set_option autoImplicit false

namespace StormSurge

/-- Minimal JSON value model for the webhook payloads handled by the middleware
(src/manifests/middleware). Objects are association lists; Python json.loads
keeps the last duplicate key, but all payloads of interest have distinct keys. -/
inductive Json where
  | null : Json
  | bool (b : Bool) : Json
  | num (n : Int) : Json
  | str (s : String) : Json
  | arr (xs : List Json) : Json
  | obj (fields : List (String × Json)) : Json

/-- Python truthiness of a JSON value, as used by the checks
if not payload and if flag_value in main.py. -/
def Json.isFalsy : Json → Bool
  | Json.null => true
  | Json.bool b => !b
  | Json.num n => n == 0
  | Json.str s => s == ""
  | Json.arr xs => xs.isEmpty
  | Json.obj fields => fields.isEmpty

/-- Python equality of a JSON value against a string literal: only an equal
string compares true; values of any other type compare false (no error). -/
def Json.eqStr : Json → String → Bool
  | Json.str s, t => s == t
  | _, _ => false

/-- Python comparison value == literal where value came from dict.get and may
be absent (None): None compares false against any string. -/
def optEqStr (o : Option Json) (t : String) : Bool :=
  match o with
  | some j => j.eqStr t
  | none => false

/-- Python dict.get(key, default) on a JSON value already known to be an
object (the non-object case never reaches this helper in the handler). -/
def Json.getDefault (j : Json) (key : String) (d : Json) : Json :=
  match j with
  | Json.obj fields => (fields.lookup key).getD d
  | _ => d

/-- Canonical flag data returned by parse_webhook_payload in
src/manifests/middleware/feature_flags.py: a dict with flag_key, flag_value
and provider entries. Key and value are JSON values exactly as extracted. -/
structure FlagData where
  flag_key : Json
  flag_value : Json
  provider : String

/-- LaunchDarkly provider state (feature_flags.py line 42): the configured
webhook secret, possibly empty. -/
structure LaunchDarklyProvider where
  webhook_secret : String

/-- Statsig provider state (feature_flags.py line 78). -/
structure StatsigProvider where
  webhook_secret : String

/-- Modelled from the spec and the Python standard library: hmac.new with
hashlib.sha256 over the utf-8 encoded secret and the raw body, hex encoded.
The primitive itself lives outside this repository, so every definition that
needs it takes it as an explicit function argument from secret and body
bytes to the hex digest string. -/
def HmacHex : Type := String → List Nat → String

/-- LaunchDarklyProvider.verify_webhook_signature (feature_flags.py lines
45..57): with an empty secret the check is skipped and returns true;
otherwise the signature is compared (hmac.compare_digest, functionally
string equality) against the hex HMAC-SHA256 of the body under the secret. -/
def LaunchDarklyProvider.verify_webhook_signature (hmacSha256Hex : HmacHex)
    (p : LaunchDarklyProvider) (payload : List Nat) (signature : String) : Bool :=
  if p.webhook_secret = "" then true
  else signature == hmacSha256Hex p.webhook_secret payload

/-- StatsigProvider.verify_webhook_signature (feature_flags.py lines 81..93):
same as LaunchDarkly except the expected value is prefixed with sha256=
before the comparison. -/
def StatsigProvider.verify_webhook_signature (hmacSha256Hex : HmacHex)
    (p : StatsigProvider) (payload : List Nat) (signature : String) : Bool :=
  if p.webhook_secret = "" then true
  else ("sha256=" ++ hmacSha256Hex p.webhook_secret payload) == signature

/-- LaunchDarklyProvider.parse_webhook_payload (feature_flags.py lines
59..69). Except.error models the AttributeError raised by calling .get on a
non-dict, which the endpoint catches as an internal error; Except.ok none is
the deliberate null result. The flag value defaults to False when absent. -/
def LaunchDarklyProvider.parse_webhook_payload (payload : Json) :
    Except Unit (Option FlagData) :=
  match payload with
  | Json.obj fields =>
    if optEqStr (fields.lookup "kind") "flag" then
      match (fields.lookup "data").getD (Json.obj []) with
      | Json.obj dataFields =>
        let flag_key := (dataFields.lookup "key").getD (Json.str "")
        if flag_key.eqStr "enable-cost-optimizer" then
          Except.ok (some ⟨flag_key, (dataFields.lookup "value").getD (Json.bool false),
            "launchdarkly"⟩)
        else Except.ok none
      | _ => Except.error ()
    else Except.ok none
  | _ => Except.error ()

/-- StatsigProvider.parse_webhook_payload (feature_flags.py lines 95..105):
event_type gate_config_updated, gate name at data.name, enabled flag at
data.enabled, well-known gate enable_cost_optimizer. -/
def StatsigProvider.parse_webhook_payload (payload : Json) :
    Except Unit (Option FlagData) :=
  match payload with
  | Json.obj fields =>
    if optEqStr (fields.lookup "event_type") "gate_config_updated" then
      match (fields.lookup "data").getD (Json.obj []) with
      | Json.obj dataFields =>
        let gate_name := (dataFields.lookup "name").getD (Json.str "")
        if gate_name.eqStr "enable_cost_optimizer" then
          Except.ok (some ⟨gate_name, (dataFields.lookup "enabled").getD (Json.bool false),
            "statsig"⟩)
        else Except.ok none
      | _ => Except.error ()
    else Except.ok none
  | _ => Except.error ()

/-- The two provider types FeatureFlagManager accepts (feature_flags.py lines
114..123); any other configured string raises ValueError at startup, so a
running middleware always holds one of these. -/
inductive ProviderType where
  | launchdarkly : ProviderType
  | statsig : ProviderType
deriving DecidableEq

/-- Lowercased provider type string as stored by FeatureFlagManager. -/
def ProviderType.asString : ProviderType → String
  | ProviderType.launchdarkly => "launchdarkly"
  | ProviderType.statsig => "statsig"

/-- Signature verification dispatched through the provider selected at
startup, as the webhook handler does via flag_manager.get_provider. -/
def providerVerify (hmacSha256Hex : HmacHex) (pt : ProviderType) (secret : String)
    (payload : List Nat) (signature : String) : Bool :=
  match pt with
  | ProviderType.launchdarkly =>
    LaunchDarklyProvider.verify_webhook_signature hmacSha256Hex ⟨secret⟩ payload signature
  | ProviderType.statsig =>
    StatsigProvider.verify_webhook_signature hmacSha256Hex ⟨secret⟩ payload signature

/-- Payload parsing dispatched through the provider selected at startup. -/
def providerParse (pt : ProviderType) (payload : Json) : Except Unit (Option FlagData) :=
  match pt with
  | ProviderType.launchdarkly => LaunchDarklyProvider.parse_webhook_payload payload
  | ProviderType.statsig => StatsigProvider.parse_webhook_payload payload

/-- Capacity triple of the remote cluster as composed by the middleware for
the PUT body (main.py lines 118..135). -/
structure Capacity where
  target : Int
  minimum : Int
  maximum : Int
deriving DecidableEq

/-- Capacity fields as extracted from the GET response JSON (main.py line
115); each field may be absent, in which case scale_cluster falls back to
the defaults 2, 1, 10. -/
structure CapacityJson where
  target : Option Int
  minimum : Option Int
  maximum : Option Int
deriving DecidableEq

/-- Python max on two integers. -/
def pyMax (a b : Int) : Int := if a ≤ b then b else a

/-- Python min on two integers. -/
def pyMin (a b : Int) : Int := if a ≤ b then a else b

/-- Python int() truncation toward zero of an exact rational. The source
multiplies the integer target by the literals 0.8 and 1.2 in double
precision; for the integer targets the clamped results can expose, the
double computation and the exact rational one truncate to the same integer,
so the embedding uses exact rationals 4/5 and 6/5. -/
def pyTrunc (q : ℚ) : Int := Int.tdiv q.num (q.den : Int)

/-- Default value of the scale_factor parameter of
SpotOceanManager.scale_cluster (main.py line 102), the Python literal 1.2;
the handler always calls scale_cluster without passing a factor. -/
def defaultScaleFactor : ℚ := 6 / 5

/-- New capacity composed by SpotOceanManager.scale_cluster before the PUT
(main.py lines 118..133): optimize clamps max(1, int(target * 0.8)), any
other action clamps min(10, int(target * scale_factor)); minimum and maximum
are copied from the fetched capacity with defaults 1 and 10. -/
def computeNewCapacity (action : String) (scale_factor : ℚ) (cur : CapacityJson) : Capacity :=
  if action = "optimize" then
    ⟨pyMax 1 (pyTrunc ((cur.target.getD 2 : ℚ) * (4 / 5))),
     cur.minimum.getD 1, cur.maximum.getD 10⟩
  else
    ⟨pyMin 10 (pyTrunc ((cur.target.getD 2 : ℚ) * scale_factor)),
     cur.minimum.getD 1, cur.maximum.getD 10⟩

/-- External world of one scaling attempt. cluster_info none models
get_cluster_info returning an empty dict (transport failure or empty body,
main.py lines 89..100); some c gives the capacity fields of the response.
put_ok false models a transport error or non-2xx status on the PUT. -/
structure SpotWorld where
  cluster_info : Option CapacityJson
  put_ok : Bool
deriving DecidableEq

/-- Observable result of one SpotOceanManager.scale_cluster call: the
returned success flag, the capacity sent in the PUT body when a PUT was
issued, and the log_cluster_action records (action, success) handed to the
logging manager. -/
structure ScaleResult where
  success : Bool
  put_request : Option Capacity
  cluster_actions : List (String × Bool)
deriving DecidableEq

/-- SpotOceanManager.scale_cluster (main.py lines 102..181): on a failed or
empty capacity GET it logs a failed cluster action and returns False without
a PUT; otherwise it composes the new capacity, issues the PUT, and logs
success or failure of the PUT. Cluster action records are produced only when
a logging manager is configured. -/
def scale_cluster (logging_enabled : Bool) (w : SpotWorld) (action : String)
    (scale_factor : ℚ) : ScaleResult :=
  match w.cluster_info with
  | none => ⟨false, none, if logging_enabled then [(action, false)] else []⟩
  | some cur =>
    let new_capacity := computeNewCapacity action scale_factor cur
    if w.put_ok then
      ⟨true, some new_capacity, if logging_enabled then [(action, true)] else []⟩
    else
      ⟨false, some new_capacity, if logging_enabled then [(action, false)] else []⟩

/-- Action string chosen by the webhook handler from the truthiness of the
flag value (main.py lines 307..314). -/
def webhookAction (flag_truthy : Bool) : String :=
  if flag_truthy then "optimize" else "performance"

/-- Action name reported in the webhook response body (main.py lines
310..314). -/
def webhookActionName (flag_truthy : Bool) : String :=
  if flag_truthy then "cost_optimization_enabled" else "cost_optimization_disabled"

/-- Startup configuration consumed by the webhook handler: the validated
feature flag provider, the WEBHOOK_SECRET value, and whether a logging
manager was successfully initialized. -/
structure MiddlewareConfig where
  provider : ProviderType
  webhook_secret : String
  logging_enabled : Bool

/-- Incoming webhook request: raw body bytes, the two signature headers
(empty string when absent, matching headers.get with default), and the
result of request.get_json(force=True), none when the body is not decodable
JSON. -/
structure WebhookRequest where
  raw_body : List Nat
  ld_signature : String
  statsig_signature : String
  parsed_json : Option Json

/-- JSON fields of the webhook HTTP response relevant to the claims. -/
structure WebhookResponse where
  http_status : Nat
  status : Option String
  action : Option String
  success : Option Bool
  error : Option String
  kind : Option Json

/-- Observable outcome of one webhook request: the HTTP response, the
capacity PUT issued to the Spot API if any, and the cluster action records
sent to the event sink. -/
structure HandlerOutcome where
  response : WebhookResponse
  put_request : Option Capacity
  cluster_actions : List (String × Bool)

/-- Signature header the handler reads for the given endpoint (main.py lines
231..236). -/
def requestSignature (endpoint : ProviderType) (req : WebhookRequest) : String :=
  match endpoint with
  | ProviderType.launchdarkly => req.ld_signature
  | ProviderType.statsig => req.statsig_signature

/-- handle_feature_flag_webhook (main.py lines 208..367) with the endpoint
route name as first argument: provider check, signature verification, JSON
decode and emptiness check, provider parse, then either the scaling flow
with a processed response or a received acknowledgment; AttributeError from
parse is caught by the outer handler as a 500. -/
def handle_feature_flag_webhook (hmacSha256Hex : HmacHex) (cfg : MiddlewareConfig)
    (endpoint : ProviderType) (req : WebhookRequest) (w : SpotWorld) : HandlerOutcome :=
  if cfg.provider ≠ endpoint then
    ⟨⟨400, none, none, none,
      some ("Wrong provider endpoint. Expected " ++ cfg.provider.asString), none⟩, none, []⟩
  else if providerVerify hmacSha256Hex cfg.provider cfg.webhook_secret req.raw_body
      (requestSignature endpoint req) = false then
    ⟨⟨401, none, none, none, some "Invalid signature", none⟩, none, []⟩
  else
    match req.parsed_json with
    | none => ⟨⟨400, none, none, none, some "Invalid JSON payload", none⟩, none, []⟩
    | some payload =>
      if payload.isFalsy then
        ⟨⟨400, none, none, none, some "Empty JSON payload", none⟩, none, []⟩
      else
        match providerParse cfg.provider payload with
        | Except.error _ =>
          ⟨⟨500, none, none, none, some "Internal server error", none⟩, none, []⟩
        | Except.ok none =>
          ⟨⟨200, some "received", none, none, none,
            some (payload.getDefault "kind" (Json.str "unknown"))⟩, none, []⟩
        | Except.ok (some flag_data) =>
          let flag_truthy := !flag_data.flag_value.isFalsy
          let r := scale_cluster cfg.logging_enabled w (webhookAction flag_truthy)
            defaultScaleFactor
          ⟨⟨200, some "processed", some (webhookActionName flag_truthy), some r.success,
            none, none⟩, r.put_request, r.cluster_actions⟩

/-- Event appended to the pending batch of the LaunchDarkly logging provider
(logging_providers.py lines 134..145): the kind tag and the event key; the
timestamp and user context fields do not influence the batching behaviour
under study and are omitted. -/
structure LDEvent where
  kind : String
  key : String
deriving DecidableEq

/-- Batch size threshold max_batch_size of both logging providers
(logging_providers.py line 60). -/
def max_batch_size : Nat := 100

/-- LaunchDarklyLoggingProvider.flush_events (logging_providers.py lines
156..179): an empty batch returns True without a POST; otherwise the batch
is POSTed and the outcome is decided by the HTTP status of the response,
which the caller supplies as post_result: some c is a response with status
code c, none is an exception raised by the POST (transport error or
timeout). The batch is cleared only when the status code is in [200, 202];
any other status, 2xx or not, and any exception leave the batch unchanged
and return False. -/
def flush_events (post_result : Option Nat) (pending : List LDEvent) :
    Bool × List LDEvent :=
  if pending = [] then (true, pending)
  else
    match post_result with
    | some status_code =>
      if status_code ∈ [200, 202] then (true, [])
      else (false, pending)
    | none => (false, pending)

/-- LaunchDarklyLoggingProvider.log_custom_event (logging_providers.py lines
134..154): appends one custom event, then flushes when the batch has reached
max_batch_size, otherwise returns True. -/
def log_custom_event (post_result : Option Nat) (event_name : String)
    (pending : List LDEvent) : Bool × List LDEvent :=
  let pending2 := pending ++ [⟨"custom", event_name⟩]
  if max_batch_size ≤ pending2.length then flush_events post_result pending2
  else (true, pending2)

/-- Rational floor through integer floor division. -/
def ratFloor (q : ℚ) : Int := Int.fdiv q.num (q.den : Int)

/-- Rational ceiling through integer floor division. -/
def ratCeil (q : ℚ) : Int := -(Int.fdiv (-q.num) (q.den : Int))

/-- Modelled from the spec: the scaling decision function of section 4.4,
true maps to the optimize intent with factor 0.8 and false to the
performance intent with factor 1.2. -/
structure ScalingIntent where
  action : String
  scale_factor : ℚ
deriving DecidableEq

/-- Modelled from the spec: Decide of section 4.4. -/
def SpecDecide (flagValue : Bool) : ScalingIntent :=
  if flagValue then ⟨"optimize", 4 / 5⟩ else ⟨"performance", 6 / 5⟩

/-- Modelled from the spec: the new-target formula of section 4.5 step 2,
max(minimum, floor(target times factor)) for optimize and min(maximum,
ceil(target times factor)) for performance, minimum and maximum carried
through unchanged. -/
def specNewCapacity (action : String) (scale_factor : ℚ) (cur : Capacity) : Capacity :=
  if action = "optimize" then
    ⟨pyMax cur.minimum (ratFloor ((cur.target : ℚ) * scale_factor)), cur.minimum, cur.maximum⟩
  else
    ⟨pyMin cur.maximum (ratCeil ((cur.target : ℚ) * scale_factor)), cur.minimum, cur.maximum⟩

/-- The capacity formula the code actually implements, stated over a fully
fetched capacity triple: optimize takes max(1, trunc(target times 0.8)),
performance takes min(10, trunc(target times the scale factor)), with
minimum and maximum carried through unchanged. This is the amended form of
the formula claim. -/
def amendedNewCapacity (action : String) (scale_factor : ℚ) (cur : Capacity) : Capacity :=
  if action = "optimize" then
    ⟨pyMax 1 (pyTrunc ((cur.target : ℚ) * (4 / 5))), cur.minimum, cur.maximum⟩
  else
    ⟨pyMin 10 (pyTrunc ((cur.target : ℚ) * scale_factor)), cur.minimum, cur.maximum⟩

theorem pyTrunc_of_num_den {q : ℚ} {n : Int} {d : Nat} (h1 : q.num = n) (h2 : q.den = d) :
    pyTrunc q = Int.tdiv n (d : Int) := by
  simp [pyTrunc, h1, h2]

theorem ratFloor_of_num_den {q : ℚ} {n : Int} {d : Nat} (h1 : q.num = n) (h2 : q.den = d) :
    ratFloor q = Int.fdiv n (d : Int) := by
  simp [ratFloor, h1, h2]

theorem ratCeil_of_num_den {q : ℚ} {n : Int} {d : Nat} (h1 : q.num = n) (h2 : q.den = d) :
    ratCeil q = -(Int.fdiv (-n) (d : Int)) := by
  simp [ratCeil, h1, h2]

theorem trunc_cast3_mul_08 : pyTrunc ((3 : ℚ) * (4 / 5)) = 2 := by
  rw [pyTrunc_of_num_den (n := 12) (d := 5) (by norm_num) (by norm_num)]
  rfl

theorem trunc_cast3_mul_12 : pyTrunc ((3 : ℚ) * (6 / 5)) = 3 := by
  rw [pyTrunc_of_num_den (n := 18) (d := 5) (by norm_num) (by norm_num)]
  rfl

theorem trunc_cast5_mul_12 : pyTrunc ((5 : ℚ) * (6 / 5)) = 6 := by
  rw [pyTrunc_of_num_den (n := 6) (d := 1) (by norm_num) (by norm_num)]
  rfl

theorem trunc_cast5_mul_08 : pyTrunc ((5 : ℚ) * (4 / 5)) = 4 := by
  rw [pyTrunc_of_num_den (n := 4) (d := 1) (by norm_num) (by norm_num)]
  rfl

theorem floor_cast3_mul_08 : ratFloor ((3 : ℚ) * (4 / 5)) = 2 := by
  rw [ratFloor_of_num_den (n := 12) (d := 5) (by norm_num) (by norm_num)]
  rfl

theorem ceil_cast3_mul_12 : ratCeil ((3 : ℚ) * (6 / 5)) = 4 := by
  rw [ratCeil_of_num_den (n := 18) (d := 5) (by norm_num) (by norm_num)]
  rfl

theorem ceil_cast5_mul_12 : ratCeil ((5 : ℚ) * (6 / 5)) = 6 := by
  rw [ratCeil_of_num_den (n := 6) (d := 1) (by norm_num) (by norm_num)]
  rfl

theorem string_append_left_cancel {s a b : String} (h : s ++ a = s ++ b) : a = b := by
  apply String.ext
  have h2 := congrArg String.data h
  rw [String.data_append, String.data_append] at h2
  exact List.append_cancel_left h2

/-- C1: the code does not preserve the capacity invariant. The fetched
capacity with target 3, minimum 3, maximum 10 satisfies
minimum ≤ target ≤ maximum, yet for the optimize action the capacity
composed before the PUT has target 2 below the minimum, because the code
clamps against the constant 1 instead of the fetched minimum; minimum and
maximum are carried through unchanged. -/
theorem capacity_invariant_violation_on_optimize :
    ((3 : Int) ≤ 3 ∧ (3 : Int) ≤ 10)
    ∧ computeNewCapacity "optimize" defaultScaleFactor ⟨some 3, some 3, some 10⟩ = ⟨2, 3, 10⟩
    ∧ ¬ ((3 : Int) ≤ 2) := by
  refine ⟨⟨by decide, by decide⟩, ?_, by decide⟩
  simp [computeNewCapacity, defaultScaleFactor, trunc_cast3_mul_08, pyMax]

/-- C2 counterexample: the formula of the claim disagrees with the code at
concrete inputs. On target 3, minimum 3, maximum 10 the optimize action
yields 2 in the code but 3 under the claimed max(minimum, floor) formula; on
target 3, minimum 1, maximum 10 the performance action yields 3 in the code
(truncation) but 4 under the claimed ceiling; on target 5, minimum 1,
maximum 5 the performance action yields 6 in the code but 5 under the
claimed min(maximum, ceil) clamp. -/
theorem capacity_formula_counterexample :
    (computeNewCapacity "optimize" defaultScaleFactor ⟨some 3, some 3, some 10⟩).target = 2
    ∧ (specNewCapacity "optimize" (4 / 5) ⟨3, 3, 10⟩).target = 3
    ∧ (computeNewCapacity "performance" defaultScaleFactor ⟨some 3, some 1, some 10⟩).target = 3
    ∧ (specNewCapacity "performance" (6 / 5) ⟨3, 1, 10⟩).target = 4
    ∧ (computeNewCapacity "performance" defaultScaleFactor ⟨some 5, some 1, some 5⟩).target = 6
    ∧ (specNewCapacity "performance" (6 / 5) ⟨5, 1, 5⟩).target = 5 := by
  refine ⟨?_, ?_, ?_, ?_, ?_, ?_⟩
  · simp [computeNewCapacity, defaultScaleFactor, trunc_cast3_mul_08, pyMax]
  · simp [specNewCapacity, floor_cast3_mul_08, pyMax]
  · simp [computeNewCapacity, defaultScaleFactor, trunc_cast3_mul_12, pyMin]
  · simp [specNewCapacity, ceil_cast3_mul_12, pyMin]
  · simp [computeNewCapacity, defaultScaleFactor, trunc_cast5_mul_12, pyMin]
  · simp [specNewCapacity, ceil_cast5_mul_12, pyMin]

/-- C2 amended: for every fetched capacity triple the code computes the new
target as max(1, trunc(target times 0.8)) for optimize and min(10,
trunc(target times scale factor)) for performance, carrying minimum and
maximum through unchanged from the fetched capacity. -/
theorem computeNewCapacity_eq_amended (action : String) (scale_factor : ℚ) (t mn mx : Int) :
    computeNewCapacity action scale_factor ⟨some t, some mn, some mx⟩ =
      amendedNewCapacity action scale_factor ⟨t, mn, mx⟩ := by
  by_cases h : action = "optimize" <;>
    simp [computeNewCapacity, amendedNewCapacity, h]

/-- C4: the scaling decision is a pure function of the flag value. The
action the handler selects agrees with the spec decision function, and the
scale factor of the spec decision, 0.8 for a true flag and 1.2 for a false
flag, is exactly the multiplier the code applies to the fetched target,
even though the handler passes no explicit factor: the optimize branch
hardcodes 0.8 and the performance branch uses the default 1.2. -/
theorem decide_factor_is_applied (v : Bool) (cur : CapacityJson) :
    webhookAction v = (SpecDecide v).action
    ∧ (computeNewCapacity (webhookAction v) defaultScaleFactor cur).target =
        (if v then pyMax 1 (pyTrunc ((cur.target.getD 2 : ℚ) * (SpecDecide v).scale_factor))
         else pyMin 10 (pyTrunc ((cur.target.getD 2 : ℚ) * (SpecDecide v).scale_factor))) := by
  cases v <;> exact ⟨rfl, rfl⟩

/-- C3: with a non-empty secret, each provider accepts exactly the
HMAC-SHA256 hex digest of the raw body under that secret (for Statsig with
the sha256= prefix on the signature) and rejects any signature whose digest,
for example one produced under a different secret or over an altered or
truncated body, differs from the expected digest; with an empty secret both
providers accept every body and every signature, including the empty one. -/
theorem verify_webhook_signature_hmac (hmacSha256Hex : HmacHex)
    (secret secret2 : String) (body body2 : List Nat) (sig : String) :
    (secret ≠ "" →
      (LaunchDarklyProvider.verify_webhook_signature hmacSha256Hex ⟨secret⟩ body
          (hmacSha256Hex secret body) = true
        ∧ StatsigProvider.verify_webhook_signature hmacSha256Hex ⟨secret⟩ body
          ("sha256=" ++ hmacSha256Hex secret body) = true
        ∧ (hmacSha256Hex secret2 body2 ≠ hmacSha256Hex secret body →
            LaunchDarklyProvider.verify_webhook_signature hmacSha256Hex ⟨secret⟩ body
              (hmacSha256Hex secret2 body2) = false)
        ∧ (hmacSha256Hex secret2 body2 ≠ hmacSha256Hex secret body →
            StatsigProvider.verify_webhook_signature hmacSha256Hex ⟨secret⟩ body
              ("sha256=" ++ hmacSha256Hex secret2 body2) = false)))
    ∧ (secret = "" →
        LaunchDarklyProvider.verify_webhook_signature hmacSha256Hex ⟨secret⟩ body sig = true
        ∧ StatsigProvider.verify_webhook_signature hmacSha256Hex ⟨secret⟩ body sig = true) := by
  constructor
  · intro hs
    refine ⟨?_, ?_, ?_, ?_⟩
    · simp [LaunchDarklyProvider.verify_webhook_signature, hs]
    · simp [StatsigProvider.verify_webhook_signature, hs]
    · intro hne
      simp [LaunchDarklyProvider.verify_webhook_signature, hs]
      exact hne
    · intro hne
      simp [StatsigProvider.verify_webhook_signature, hs]
      intro h
      exact hne (string_append_left_cancel h.symm)
  · intro hs
    constructor
    · simp [LaunchDarklyProvider.verify_webhook_signature, hs]
    · simp [StatsigProvider.verify_webhook_signature, hs]

/-- Witness for C3 at a concrete hex function, secret and body. -/
theorem verify_webhook_signature_hmac_witness :
    LaunchDarklyProvider.verify_webhook_signature (fun s _ => s) ⟨"k"⟩ [] "k" = true
    ∧ StatsigProvider.verify_webhook_signature (fun s _ => s) ⟨"k"⟩ [] ("sha256=" ++ "k") = true
    ∧ LaunchDarklyProvider.verify_webhook_signature (fun s _ => s) ⟨"k"⟩ [] "x" = false
    ∧ StatsigProvider.verify_webhook_signature (fun s _ => s) ⟨"k"⟩ [] ("sha256=" ++ "x") = false
    ∧ LaunchDarklyProvider.verify_webhook_signature (fun s _ => s) ⟨""⟩ [] "" = true
    ∧ StatsigProvider.verify_webhook_signature (fun s _ => s) ⟨""⟩ [] "" = true := by
  have h := verify_webhook_signature_hmac (fun s _ => s) "k" "x" [] [] ""
  have h0 := verify_webhook_signature_hmac (fun s _ => s) "" "x" [] [] ""
  have hk := h.1 (by decide)
  exact ⟨hk.1, hk.2.1, hk.2.2.1 (by decide), hk.2.2.2 (by decide),
    (h0.2 rfl).1, (h0.2 rfl).2⟩

theorem optEqStr_some (j : Json) (t : String) : optEqStr (some j) t = j.eqStr t := rfl

theorem optEqStr_none (t : String) : optEqStr none t = false := rfl

theorem eqStr_str (s t : String) : (Json.str s).eqStr t = (s == t) := rfl

/-- C5: both provider adapters return the null result for any payload whose
event kind is absent or not the recognized one, and for any payload whose
flag key is not the well-known key, regardless of the value; for a payload
with the recognized kind and the well-known key they return a non-null
event carrying that key and the boolean value of the payload. -/
theorem parse_webhook_payload_wellknown_filter
    (fields dataFields : List (String × Json)) (k kv : Json) (b : Bool) :
    ((fields.lookup "kind" = none ∨
        (fields.lookup "kind" = some k ∧ k.eqStr "flag" = false)) →
      LaunchDarklyProvider.parse_webhook_payload (Json.obj fields) = Except.ok none)
    ∧ (fields.lookup "kind" = some (Json.str "flag") →
       fields.lookup "data" = some (Json.obj dataFields) →
       dataFields.lookup "key" = some kv →
       kv.eqStr "enable-cost-optimizer" = false →
      LaunchDarklyProvider.parse_webhook_payload (Json.obj fields) = Except.ok none)
    ∧ (fields.lookup "kind" = some (Json.str "flag") →
       fields.lookup "data" = some (Json.obj dataFields) →
       dataFields.lookup "key" = some (Json.str "enable-cost-optimizer") →
       dataFields.lookup "value" = some (Json.bool b) →
      LaunchDarklyProvider.parse_webhook_payload (Json.obj fields) =
        Except.ok (some ⟨Json.str "enable-cost-optimizer", Json.bool b, "launchdarkly"⟩))
    ∧ ((fields.lookup "event_type" = none ∨
        (fields.lookup "event_type" = some k ∧ k.eqStr "gate_config_updated" = false)) →
      StatsigProvider.parse_webhook_payload (Json.obj fields) = Except.ok none)
    ∧ (fields.lookup "event_type" = some (Json.str "gate_config_updated") →
       fields.lookup "data" = some (Json.obj dataFields) →
       dataFields.lookup "name" = some kv →
       kv.eqStr "enable_cost_optimizer" = false →
      StatsigProvider.parse_webhook_payload (Json.obj fields) = Except.ok none)
    ∧ (fields.lookup "event_type" = some (Json.str "gate_config_updated") →
       fields.lookup "data" = some (Json.obj dataFields) →
       dataFields.lookup "name" = some (Json.str "enable_cost_optimizer") →
       dataFields.lookup "enabled" = some (Json.bool b) →
      StatsigProvider.parse_webhook_payload (Json.obj fields) =
        Except.ok (some ⟨Json.str "enable_cost_optimizer", Json.bool b, "statsig"⟩)) := by
  refine ⟨?_, ?_, ?_, ?_, ?_, ?_⟩
  · rintro (hk | ⟨hk, hne⟩)
    · simp [LaunchDarklyProvider.parse_webhook_payload, optEqStr_none, hk]
    · simp [LaunchDarklyProvider.parse_webhook_payload, optEqStr_some, hk, hne]
  · intro hk hd hkey hne
    simp [LaunchDarklyProvider.parse_webhook_payload, optEqStr_some, eqStr_str,
      hk, hd, hkey, hne]
  · intro hk hd hkey hval
    simp [LaunchDarklyProvider.parse_webhook_payload, optEqStr_some, eqStr_str,
      hk, hd, hkey, hval]
  · rintro (hk | ⟨hk, hne⟩)
    · simp [StatsigProvider.parse_webhook_payload, optEqStr_none, hk]
    · simp [StatsigProvider.parse_webhook_payload, optEqStr_some, hk, hne]
  · intro hk hd hkey hne
    simp [StatsigProvider.parse_webhook_payload, optEqStr_some, eqStr_str,
      hk, hd, hkey, hne]
  · intro hk hd hkey hval
    simp [StatsigProvider.parse_webhook_payload, optEqStr_some, eqStr_str,
      hk, hd, hkey, hval]

/-- Witness for C5 at concrete payloads: an unrecognized kind, a
non-well-known flag key with value true, and the well-known key with value
true, for both providers. -/
theorem parse_webhook_payload_wellknown_filter_witness :
    LaunchDarklyProvider.parse_webhook_payload
      (Json.obj [("kind", Json.str "project")]) = Except.ok none
    ∧ LaunchDarklyProvider.parse_webhook_payload
      (Json.obj [("kind", Json.str "flag"),
        ("data", Json.obj [("key", Json.str "other-flag"), ("value", Json.bool true)])]) =
        Except.ok none
    ∧ LaunchDarklyProvider.parse_webhook_payload
      (Json.obj [("kind", Json.str "flag"),
        ("data", Json.obj [("key", Json.str "enable-cost-optimizer"),
          ("value", Json.bool true)])]) =
        Except.ok (some ⟨Json.str "enable-cost-optimizer", Json.bool true, "launchdarkly"⟩)
    ∧ StatsigProvider.parse_webhook_payload
      (Json.obj [("event_type", Json.str "gate_config_updated"),
        ("data", Json.obj [("name", Json.str "enable_cost_optimizer"),
          ("enabled", Json.bool true)])]) =
        Except.ok (some ⟨Json.str "enable_cost_optimizer", Json.bool true, "statsig"⟩) := by
  have h1 := parse_webhook_payload_wellknown_filter
    [("kind", Json.str "project")] [] (Json.str "project") Json.null true
  have h2 := parse_webhook_payload_wellknown_filter
    [("kind", Json.str "flag"),
      ("data", Json.obj [("key", Json.str "other-flag"), ("value", Json.bool true)])]
    [("key", Json.str "other-flag"), ("value", Json.bool true)] Json.null
    (Json.str "other-flag") true
  have h3 := parse_webhook_payload_wellknown_filter
    [("kind", Json.str "flag"),
      ("data", Json.obj [("key", Json.str "enable-cost-optimizer"),
        ("value", Json.bool true)])]
    [("key", Json.str "enable-cost-optimizer"), ("value", Json.bool true)]
    Json.null Json.null true
  have h4 := parse_webhook_payload_wellknown_filter
    [("event_type", Json.str "gate_config_updated"),
      ("data", Json.obj [("name", Json.str "enable_cost_optimizer"),
        ("enabled", Json.bool true)])]
    [("name", Json.str "enable_cost_optimizer"), ("enabled", Json.bool true)]
    Json.null Json.null true
  refine ⟨h1.1 (Or.inr ⟨rfl, rfl⟩), h2.2.1 rfl rfl rfl rfl, h3.2.2.1 rfl rfl rfl rfl,
    h4.2.2.2.2.2 rfl rfl rfl rfl⟩

/-- C8 counterexample: a 204 response is a confirmed 2xx delivery, yet
flushing a one-event batch against it returns False and retains the batch
instead of clearing it, because the code accepts only the statuses 200 and
202; so the batch is not cleared exactly when delivery is confirmed 2xx. -/
theorem flush_204_retained_counterexample :
    ((200 : Nat) ≤ 204 ∧ (204 : Nat) < 300)
    ∧ flush_events (some 204) [⟨"custom", "e"⟩] = (false, [⟨"custom", "e"⟩])
    ∧ flush_events (some 204) [⟨"custom", "e"⟩] ≠ (true, ([] : List LDEvent)) := by
  refine ⟨⟨by decide, by decide⟩, ?_, ?_⟩
  · simp [flush_events]
  · simp [flush_events]

/-- C8 amended: the event sink flush clears the pending batch exactly when
the bulk POST answers with status 200 or 202 and leaves it unchanged on any
other status or on an exception, so a later flush resends the same events;
an empty batch flushes trivially; each log operation appends exactly one
event and triggers a flush exactly when the batch length after the append
has reached the threshold of 100. -/
theorem event_batch_flush_behaviour (post_result : Option Nat) (status_code : Nat)
    (pending : List LDEvent) (event_name : String) :
    (pending ≠ [] → status_code ∈ [200, 202] →
        flush_events (some status_code) pending = (true, []))
    ∧ (pending ≠ [] → status_code ∉ ([200, 202] : List Nat) →
        flush_events (some status_code) pending = (false, pending))
    ∧ (pending ≠ [] → flush_events none pending = (false, pending))
    ∧ flush_events post_result [] = (true, [])
    ∧ (pending.length + 1 < max_batch_size →
        log_custom_event post_result event_name pending =
          (true, pending ++ [⟨"custom", event_name⟩]))
    ∧ (max_batch_size ≤ pending.length + 1 →
        log_custom_event post_result event_name pending =
          flush_events post_result (pending ++ [⟨"custom", event_name⟩])) := by
  refine ⟨?_, ?_, ?_, ?_, ?_, ?_⟩
  · intro hne hmem
    simp [flush_events, hne, hmem]
  · intro hne hmem
    simp [flush_events, hne, hmem]
  · intro hne
    simp [flush_events, hne]
  · simp [flush_events]
  · intro hlt
    simp [log_custom_event, Nat.not_le_of_lt hlt]
  · intro hge
    simp [log_custom_event, hge]

/-- Witness for C8 at a one-event batch with statuses 202 and 404, an
exception, and a batch of ninety nine events crossing the threshold. -/
theorem event_batch_flush_behaviour_witness :
    flush_events (some 202) [⟨"custom", "e"⟩] = (true, [])
    ∧ flush_events (some 404) [⟨"custom", "e"⟩] = (false, [⟨"custom", "e"⟩])
    ∧ flush_events none [⟨"custom", "e"⟩] = (false, [⟨"custom", "e"⟩])
    ∧ flush_events (some 200) ([] : List LDEvent) = (true, [])
    ∧ log_custom_event (some 200) "e" [] = (true, [⟨"custom", "e"⟩])
    ∧ log_custom_event (some 200) "e" (List.replicate 99 ⟨"custom", "x"⟩) =
        flush_events (some 200) (List.replicate 99 ⟨"custom", "x"⟩ ++ [⟨"custom", "e"⟩]) := by
  have h1 := event_batch_flush_behaviour (some 202) 202 [⟨"custom", "e"⟩] "e"
  have h2 := event_batch_flush_behaviour (some 404) 404 [⟨"custom", "e"⟩] "e"
  have h3 := event_batch_flush_behaviour none 200 [⟨"custom", "e"⟩] "e"
  have h4 := event_batch_flush_behaviour (some 200) 200 ([] : List LDEvent) "e"
  have h5 := event_batch_flush_behaviour (some 200) 200
    (List.replicate 99 ⟨"custom", "x"⟩) "e"
  refine ⟨h1.1 (by simp) (by decide), h2.2.1 (by simp) (by decide),
    h3.2.2.1 (by simp), h4.2.2.2.1,
    h4.2.2.2.2.1 (by simp [max_batch_size]), h5.2.2.2.2.2 (by simp [max_batch_size])⟩

/-- C6 counterexample: a payload with the recognized kind and the well-known
key but no flag value is not treated as a parse error. With the LaunchDarkly
provider configured, an empty secret and a healthy cluster at target 5,
minimum 1, maximum 10, the handler answers HTTP 200 with status processed
and proceeds to a performance scaling action that issues a PUT with target
6, instead of the 400-class failure the claim requires. -/
theorem missing_value_scales_counterexample :
    handle_feature_flag_webhook (fun _ _ => "") ⟨ProviderType.launchdarkly, "", true⟩
      ProviderType.launchdarkly
      ⟨[], "", "", some (Json.obj [("kind", Json.str "flag"),
        ("data", Json.obj [("key", Json.str "enable-cost-optimizer")])])⟩
      ⟨some ⟨some 5, some 1, some 10⟩, true⟩ =
    ⟨⟨200, some "processed", some "cost_optimization_disabled", some true, none, none⟩,
      some ⟨6, 1, 10⟩, [("performance", true)]⟩ := by
  have hcap : computeNewCapacity "performance" defaultScaleFactor ⟨some 5, some 1, some 10⟩ =
      ⟨6, 1, 10⟩ := by
    simp [computeNewCapacity, defaultScaleFactor, trunc_cast5_mul_12, pyMin]
  simp [handle_feature_flag_webhook, providerVerify,
    LaunchDarklyProvider.verify_webhook_signature, requestSignature, providerParse,
    LaunchDarklyProvider.parse_webhook_payload, optEqStr_some, eqStr_str, Json.isFalsy,
    List.lookup, scale_cluster, hcap, webhookAction, webhookActionName]

/-- C6 amended: a request body that is not decodable JSON is rejected with
HTTP 400 and the invalid-payload error, and a falsy decoded payload with the
empty-payload error, in both cases before any scaling action; but a payload
missing the flag value for the well-known key is not a parse error: the
value defaults to false and the handler proceeds to a performance scaling
action. -/
theorem malformed_json_rejected_missing_value_defaulted (hmacSha256Hex : HmacHex)
    (cfg : MiddlewareConfig) (endpoint : ProviderType) (req : WebhookRequest)
    (w : SpotWorld) (dataFields : List (String × Json))
    (hp : cfg.provider = endpoint)
    (hv : providerVerify hmacSha256Hex cfg.provider cfg.webhook_secret req.raw_body
      (requestSignature endpoint req) = true) :
    (req.parsed_json = none →
      handle_feature_flag_webhook hmacSha256Hex cfg endpoint req w =
        ⟨⟨400, none, none, none, some "Invalid JSON payload", none⟩, none, []⟩)
    ∧ (∀ p, req.parsed_json = some p → p.isFalsy = true →
      handle_feature_flag_webhook hmacSha256Hex cfg endpoint req w =
        ⟨⟨400, none, none, none, some "Empty JSON payload", none⟩, none, []⟩)
    ∧ (dataFields.lookup "key" = some (Json.str "enable-cost-optimizer") →
       dataFields.lookup "value" = none →
      LaunchDarklyProvider.parse_webhook_payload
        (Json.obj [("kind", Json.str "flag"), ("data", Json.obj dataFields)]) =
        Except.ok (some ⟨Json.str "enable-cost-optimizer", Json.bool false,
          "launchdarkly"⟩)) := by
  subst hp
  refine ⟨?_, ?_, ?_⟩
  · intro hj
    simp [handle_feature_flag_webhook, hv, hj]
  · intro p hj hf
    simp [handle_feature_flag_webhook, hv, hj, hf]
  · intro hkey hval
    simp [LaunchDarklyProvider.parse_webhook_payload, optEqStr_some, eqStr_str,
      List.lookup, hkey, hval]

/-- Witness for C6 at a concrete configuration and request. -/
theorem malformed_json_rejected_missing_value_defaulted_witness :
    handle_feature_flag_webhook (fun _ _ => "") ⟨ProviderType.launchdarkly, "", true⟩
      ProviderType.launchdarkly ⟨[], "", "", none⟩ ⟨none, true⟩ =
      ⟨⟨400, none, none, none, some "Invalid JSON payload", none⟩, none, []⟩
    ∧ LaunchDarklyProvider.parse_webhook_payload
        (Json.obj [("kind", Json.str "flag"),
          ("data", Json.obj [("key", Json.str "enable-cost-optimizer")])]) =
        Except.ok (some ⟨Json.str "enable-cost-optimizer", Json.bool false,
          "launchdarkly"⟩) := by
  have h := malformed_json_rejected_missing_value_defaulted (fun _ _ => "")
    ⟨ProviderType.launchdarkly, "", true⟩ ProviderType.launchdarkly
    ⟨[], "", "", none⟩ ⟨none, true⟩ [("key", Json.str "enable-cost-optimizer")] rfl rfl
  exact ⟨h.1 rfl, h.2.2 rfl rfl⟩

/-- C7: when the capacity GET fails, the scaling attempt returns a failed
outcome and no PUT is ever issued, the webhook endpoint still answers HTTP
200 with status processed and success false in the body, and a
cluster_action record with success false is handed to the event sink. -/
theorem get_failure_fails_without_put (hmacSha256Hex : HmacHex)
    (cfg : MiddlewareConfig) (endpoint : ProviderType) (req : WebhookRequest)
    (w : SpotWorld) (payload : Json) (fd : FlagData)
    (hp : cfg.provider = endpoint)
    (hv : providerVerify hmacSha256Hex cfg.provider cfg.webhook_secret req.raw_body
      (requestSignature endpoint req) = true)
    (hj : req.parsed_json = some payload)
    (hnf : payload.isFalsy = false)
    (hparse : providerParse cfg.provider payload = Except.ok (some fd))
    (hget : w.cluster_info = none)
    (hlog : cfg.logging_enabled = true) :
    handle_feature_flag_webhook hmacSha256Hex cfg endpoint req w =
      ⟨⟨200, some "processed", some (webhookActionName (!fd.flag_value.isFalsy)),
        some false, none, none⟩, none,
        [(webhookAction (!fd.flag_value.isFalsy), false)]⟩ := by
  subst hp
  simp [handle_feature_flag_webhook, hv, hj, hnf, hparse, scale_cluster, hget, hlog]

/-- Witness for C7 at a concrete request with a failing capacity GET. -/
theorem get_failure_fails_without_put_witness :
    handle_feature_flag_webhook (fun _ _ => "") ⟨ProviderType.launchdarkly, "", true⟩
      ProviderType.launchdarkly
      ⟨[], "", "", some (Json.obj [("kind", Json.str "flag"),
        ("data", Json.obj [("key", Json.str "enable-cost-optimizer"),
          ("value", Json.bool true)])])⟩
      ⟨none, false⟩ =
      ⟨⟨200, some "processed", some "cost_optimization_enabled", some false, none, none⟩,
        none, [("optimize", false)]⟩ := by
  have h := get_failure_fails_without_put (fun _ _ => "")
    ⟨ProviderType.launchdarkly, "", true⟩ ProviderType.launchdarkly
    ⟨[], "", "", some (Json.obj [("kind", Json.str "flag"),
      ("data", Json.obj [("key", Json.str "enable-cost-optimizer"),
        ("value", Json.bool true)])])⟩
    ⟨none, false⟩
    (Json.obj [("kind", Json.str "flag"),
      ("data", Json.obj [("key", Json.str "enable-cost-optimizer"),
        ("value", Json.bool true)])])
    ⟨Json.str "enable-cost-optimizer", Json.bool true, "launchdarkly"⟩
    rfl rfl rfl rfl rfl rfl rfl
  exact h

/-- C9: end-to-end scenario. The LaunchDarkly flag payload for the
well-known key with value true, delivered with a valid signature while the
cluster reports target 5, minimum 1, maximum 10 and the PUT succeeds, makes
the handler issue exactly one PUT with target 4 and answer HTTP 200 with
status processed, action cost_optimization_enabled and success true. -/
theorem end_to_end_scenario_one :
    handle_feature_flag_webhook (fun _ _ => "mac")
      ⟨ProviderType.launchdarkly, "secret", true⟩ ProviderType.launchdarkly
      ⟨[], "mac", "", some (Json.obj [("kind", Json.str "flag"),
        ("data", Json.obj [("key", Json.str "enable-cost-optimizer"),
          ("value", Json.bool true)])])⟩
      ⟨some ⟨some 5, some 1, some 10⟩, true⟩ =
    ⟨⟨200, some "processed", some "cost_optimization_enabled", some true, none, none⟩,
      some ⟨4, 1, 10⟩, [("optimize", true)]⟩ := by
  have hcap : computeNewCapacity "optimize" defaultScaleFactor ⟨some 5, some 1, some 10⟩ =
      ⟨4, 1, 10⟩ := by
    simp [computeNewCapacity, defaultScaleFactor, trunc_cast5_mul_08, pyMax]
  simp [handle_feature_flag_webhook, providerVerify,
    LaunchDarklyProvider.verify_webhook_signature, requestSignature, providerParse,
    LaunchDarklyProvider.parse_webhook_payload, optEqStr_some, eqStr_str, Json.isFalsy,
    List.lookup, scale_cluster, hcap, webhookAction, webhookActionName]

/-- C10: a webhook posted to the endpoint of the provider that is not the
configured one is answered with HTTP 400 and the wrong-provider error, no
PUT and no cluster action record; the outcome does not depend on the
signature headers, the body, the decoded payload or the external world, so
the rejection happens before signature verification, JSON parsing and any
scaling; and a PUT can only ever be issued when the endpoint matches the
configured provider. -/
theorem wrong_provider_endpoint_rejected (hmacSha256Hex : HmacHex)
    (cfg : MiddlewareConfig) (endpoint : ProviderType) (req req2 : WebhookRequest)
    (w w2 : SpotWorld) :
    (cfg.provider ≠ endpoint →
      handle_feature_flag_webhook hmacSha256Hex cfg endpoint req w =
        ⟨⟨400, none, none, none,
          some ("Wrong provider endpoint. Expected " ++ cfg.provider.asString), none⟩,
          none, []⟩
      ∧ handle_feature_flag_webhook hmacSha256Hex cfg endpoint req w =
          handle_feature_flag_webhook hmacSha256Hex cfg endpoint req2 w2)
    ∧ ((handle_feature_flag_webhook hmacSha256Hex cfg endpoint req w).put_request ≠ none →
        cfg.provider = endpoint) := by
  constructor
  · intro hne
    constructor
    · simp [handle_feature_flag_webhook, hne]
    · simp [handle_feature_flag_webhook, hne]
  · intro hput
    by_contra hne
    simp [handle_feature_flag_webhook, hne] at hput

/-- Witness for C10: Statsig endpoint hit while LaunchDarkly is configured. -/
theorem wrong_provider_endpoint_rejected_witness :
    handle_feature_flag_webhook (fun _ _ => "") ⟨ProviderType.launchdarkly, "", true⟩
      ProviderType.statsig ⟨[], "", "", none⟩ ⟨none, true⟩ =
      ⟨⟨400, none, none, none,
        some ("Wrong provider endpoint. Expected " ++
          ProviderType.asString ProviderType.launchdarkly), none⟩, none, []⟩ := by
  have h := wrong_provider_endpoint_rejected (fun _ _ => "")
    ⟨ProviderType.launchdarkly, "", true⟩ ProviderType.statsig
    ⟨[], "", "", none⟩ ⟨[], "", "", none⟩ ⟨none, true⟩ ⟨none, true⟩
  exact (h.1 (by decide)).1

end StormSurge
